import Mathlib

/-!
Verification of the `peco` embeddable-selector library (`pecolib.go` and the
earlier Match-based snapshot of the same file) against its design document.

The Go source is shallowly embedded: the pure control flow of
`pecolibWrap`, `pecolib`, `Choose`, `PecoOptions.InitialIndex` and
`ChoicesHelper.draw` is translated into Lean functions.  External
collaborators that are out of scope of the source files (the `Ctx`
coordinator, the terminal backend, the rc-file machinery) are represented by
an `Env` record of their observable answers, and each run additionally
produces a trace of the external calls it performed, so that claims of the
form "the error is returned before any terminal resource is acquired" and
"no loop is started" become statements about the trace.
-/

set_option autoImplicit false

namespace Peco

/-- One input row of the session.  Only the display text (`buf`) and the
`Output()` value are observable in the embedded code. -/
structure Line where
  buf : String
  output : String
deriving Repr, DecidableEq

/-- Embedding of `NewRawLine(s, flag)` as used by `pecolibWrap`
(src/pecolib.go line 154).  `NewRawLine` itself is repository code outside
the given source files; modelled from the spec: a Line is "an immutable raw
input record: display text, optional separate output value", and with no NUL
separator in `s` the output value equals the display text.  The boolean
argument (the `NewNoMatch` flag the source marks as TODO) does not influence
anything the embedded code observes. -/
def NewRawLine (s : String) (_flag : Bool) : Line :=
  { buf := s, output := s }

/-- A caller-supplied choice: `Choice{C, V}` implementing `Choosable`
(src/pecolib.go lines 80-91). -/
structure Choice where
  c : String
  v : String
deriving Repr, DecidableEq

/-- Embedding of `PecoOptions` (src/pecolib.go lines 14-25).  Go zero values are the
defaults. -/
structure PecoOptions where
  OptTTY : String := ""
  OptQuery : String := ""
  OptRcfile : String := ""
  OptNoIgnoreCase : Bool := false
  OptBufferSize : Int := 0
  OptEnableNullSep : Bool := false
  OptInitialIndex : Int := 0
  OptInitialMatcher : String := ""
  OptPrompt : String := ""
  OptLayout : String := ""
deriving Repr, DecidableEq

/-- Embedding of `NewPecoOption` (src/pecolib.go lines 27-29). -/
def NewPecoOption : PecoOptions := {}

/-- Embedding of `PecoOptions.BufferSize` (src/pecolib.go lines 32-34). -/
def PecoOptions.BufferSize (o : PecoOptions) : Int := o.OptBufferSize

/-- Embedding of `PecoOptions.EnableNullSep` (src/pecolib.go lines 37-39). -/
def PecoOptions.EnableNullSep (o : PecoOptions) : Bool := o.OptEnableNullSep

/-- Embedding of `PecoOptions.InitialIndex` (src/pecolib.go lines 41-46). -/
def PecoOptions.InitialIndex (o : PecoOptions) : Int :=
  if 0 ≤ o.OptInitialIndex then o.OptInitialIndex + 1 else 1

/-- Embedding of `PecoOptions.LayoutType` (src/pecolib.go lines 48-50). -/
def PecoOptions.LayoutType (o : PecoOptions) : String := o.OptLayout

/-- Modelled from the spec: `IsValidLayoutType` lives in repository code
outside the given source files; the configuration surface admits layout
`"top-down"` or `"bottom-up"` only. -/
def IsValidLayoutType (s : String) : Bool :=
  s = "top-down" || s = "bottom-up"

/-- Modelled from the spec: the matcher registry (`ctx.SetCurrentMatcher`)
lives in repository code outside the given source files; the built-in
strategies are case-insensitive substring, case-sensitive substring and a
smart-case variant, selectable by name, and the registry is static.  The
names are the ones the snapshot refers to (`IgnoreCaseMatch`). -/
def knownMatcher (s : String) : Bool :=
  s = "IgnoreCase" || s = "CaseSensitive" || s = "SmartCase"

/-! ### Debounce scheduler (`ChoicesHelper.draw`)

`draw` (src/pecolib.go lines 56-73) declares both the mutex `m` and the
timer pointer `refresh` as locals of the function body.  Consequently every
invocation observes a fresh `refresh = nil`, the guard `if refresh == nil`
always passes, and `time.AfterFunc` arms a new 100ms timer on every call.
The state below counts the timers currently armed and the
execute-and-redraw actions that have run. -/

structure DebounceState where
  armedTimers : Nat
  firedActions : Nat
deriving Repr, DecidableEq

/-- Embedding of one call to `ChoicesHelper.draw`: the locally declared
`refresh` is `nil` at the guard, so the call arms a fresh timer
unconditionally; the `some` branch (a call observing an already-armed timer
and doing nothing) is dead code because `refresh` never escapes the call. -/
def draw (s : DebounceState) : DebounceState :=
  let refresh : Option Unit := none
  match refresh with
  | some _ => s
  | none => { s with armedTimers := s.armedTimers + 1 }

/-- One armed `time.AfterFunc` timer fires: it runs the
`ExecQuery`/`DrawMatches` action once and disarms itself. -/
def timerFire (s : DebounceState) : DebounceState :=
  if s.armedTimers = 0 then s
  else { armedTimers := s.armedTimers - 1, firedActions := s.firedActions + 1 }

/-! ### Choice map of `pecolibWrap`

`pecolibWrap` builds a Go map from display text to the original choice:
`choiceMap[s] = c` overwrites, so a lookup returns the value of the latest
insertion with that key.  The embedding keeps the map as an association
list; an insertion conses in front and `mapLookup` scans front-first, which
gives exactly the last-write-wins semantics of map assignment. -/

/-- One iteration of the ingestion loop's `choiceMap[s] = c`
(src/pecolib.go lines 146-151): `nil` choices are skipped. -/
def choiceMapStep (m : List (String × Choice)) (oc : Option Choice) :
    List (String × Choice) :=
  match oc with
  | none => m
  | some c => (c.c, c) :: m

/-- The finished `choiceMap` after the ingestion loop. -/
def buildChoiceMap (cs : List (Option Choice)) : List (String × Choice) :=
  cs.foldl choiceMapStep []

/-- Go map indexing `choiceMap[s]` with its `ok` flag, as an `Option`. -/
def mapLookup (m : List (String × Choice)) (k : String) : Option Choice :=
  (m.find? fun p => p.1 == k).map Prod.snd

/-- One iteration of the ingestion loop's
`matches = append(matches, NewRawLine(s, true))` (src/pecolib.go line 154):
`nil` choices are skipped. -/
def matchesStep (ms : List Line) (oc : Option Choice) : List Line :=
  match oc with
  | none => ms
  | some c => ms ++ [NewRawLine c.c true]

/-- The `matches` slice after the ingestion loop (src/pecolib.go lines
145-155): one `NewRawLine(c.Choice(), true)` per non-nil choice, in input
order.  The source fills `choiceMap` and `matches` in the same loop; the
embedding splits the loop into two folds over the same list. -/
def buildMatches (cs : List (Option Choice)) : List Line :=
  cs.foldl matchesStep []

/-- The claim's reading of duplicate handling, written from its words for
comparison with `buildChoiceMap`: the last non-nil choice in the input list
whose display text is `s`. -/
def lastWithText (cs : List (Option Choice)) (s : String) : Option Choice :=
  match cs with
  | [] => none
  | none :: rest => lastWithText rest s
  | some c :: rest =>
    match lastWithText rest s with
    | some v => some v
    | none => if c.c == s then some c else none

/-! ### Session control flow (`pecolib`)

The coordinator `Ctx`, the terminal backend and the rc-file machinery are
external collaborators; `Env` records the answers they give during one run.
A run returns the Go `(result, error)` pair as an `Except` together with the
ordered trace of external calls it performed. -/

/-- Observable external calls of one `pecolib` run, in program order. -/
inductive Event where
  | readConfig
  | drawCall
  | ttyReady
  | termboxInit
  | loopView
  | loopFilter
  | loopInput
  | loopSignal
  | execQuery
  | refresh
  | waitDone
deriving Repr, DecidableEq

/-- Answers of the external collaborators during one run:
`LocateRcfile` (`none` = error), `ctx.ReadConfig` (`some msg` = failure),
`TtyReady`, `termbox.Init` (`some msg` = failure), `ctx.ExitStatus()` after
`ctx.WaitDone()`, and the drained result channel / result slice
(`none` = nil channel / nil slice). -/
structure Env where
  locateRcfile : Option String
  readConfig : String → Option String
  ttyReady : Option String
  termboxInit : Option String
  exitStatus : Int
  resultCh : Option (List Line)

/-- The rc-file path `pecolib` ends up with: `opts.OptRcfile`, or the file
`LocateRcfile` found when the option is empty, or empty when neither is
available (src/pecolib.go lines 201-206). -/
def effectiveRcfile (env : Env) (opts : PecoOptions) : String :=
  if opts.OptRcfile = "" then env.locateRcfile.getD "" else opts.OptRcfile

/-- The message `fmt.Sprintf("Unknown layout: '%s'\n", s)`. -/
def unknownLayoutMsg (s : String) : String :=
  "Unknown layout: '" ++ s ++ "'\n"

/-- The message `fmt.Sprintf("Unknown matcher: '%s'\n", s)`. -/
def unknownMatcherMsg (s : String) : String :=
  "Unknown matcher: '" ++ s ++ "'\n"

/-- The message `fmt.Sprintf("something error code: %d", st)`. -/
def somethingErrorMsg (st : Int) : String :=
  "something error code: " ++ toString st

/-- Embedding of `pecolib` from src/pecolib.go (lines 179-280), the
Line-based snapshot.  The GOMAXPROCS adjustment (lines 183-185) is a
performance hint with no observable effect on the result and the
Windows-only `SetInputMode` call (lines 233-236) is platform dead code on
the modelled platform; both are omitted.  `ctx.SetPrompt` only affects
rendering.  Note this snapshot never consults `OptInitialMatcher`. -/
def pecolibGo (env : Env) (_choices : List Line) (opts : PecoOptions) :
    Except String (List Line) × List Event :=
  if opts.OptLayout ≠ "" ∧ ¬ IsValidLayoutType opts.OptLayout then
    (Except.error (unknownLayoutMsg opts.OptLayout), [])
  else
    let rcfile := effectiveRcfile env opts
    let rcTrace : List Event := if rcfile = "" then [] else [Event.readConfig]
    match (if rcfile = "" then none else env.readConfig rcfile) with
    | some e => (Except.error e, rcTrace)
    | none =>
      let tr1 := rcTrace ++ [Event.drawCall, Event.ttyReady]
      match env.ttyReady with
      | some e => (Except.error e, tr1)
      | none =>
        let tr2 := tr1 ++ [Event.termboxInit]
        match env.termboxInit with
        | some e => (Except.error e, tr2)
        | none =>
          let tr3 := tr2 ++
            [Event.loopView, Event.loopFilter, Event.loopInput, Event.loopSignal] ++
            (if opts.OptQuery.length > 0 then [Event.execQuery] else [Event.refresh]) ++
            [Event.waitDone]
          if env.exitStatus ≠ 0 then
            (Except.error (somethingErrorMsg env.exitStatus), tr3)
          else
            match env.resultCh with
            | none => (Except.ok [], tr3)
            | some ms => (Except.ok ms, tr3)

/-- Embedding of `pecolib` from src/unnamed/part_000 (lines 87-193), the
Match-based snapshot.  It differs from `pecolibGo` by setting the default
matcher and validating `OptInitialMatcher` through `ctx.SetCurrentMatcher`
before `TtyReady`, and by draining `ctx.Result()` instead of a channel
(observationally the same here).  The same omissions as in `pecolibGo`
apply. -/
def pecolibMatch (env : Env) (_choices : List Line) (opts : PecoOptions) :
    Except String (List Line) × List Event :=
  if opts.OptLayout ≠ "" ∧ ¬ IsValidLayoutType opts.OptLayout then
    (Except.error (unknownLayoutMsg opts.OptLayout), [])
  else
    let rcfile := effectiveRcfile env opts
    let rcTrace : List Event := if rcfile = "" then [] else [Event.readConfig]
    match (if rcfile = "" then none else env.readConfig rcfile) with
    | some e => (Except.error e, rcTrace)
    | none =>
      if opts.OptInitialMatcher.length > 0 ∧ ¬ knownMatcher opts.OptInitialMatcher then
        (Except.error (unknownMatcherMsg opts.OptInitialMatcher), rcTrace)
      else
        let tr1 := rcTrace ++ [Event.drawCall, Event.ttyReady]
        match env.ttyReady with
        | some e => (Except.error e, tr1)
        | none =>
          let tr2 := tr1 ++ [Event.termboxInit]
          match env.termboxInit with
          | some e => (Except.error e, tr2)
          | none =>
            let tr3 := tr2 ++
              [Event.loopView, Event.loopFilter, Event.loopInput, Event.loopSignal] ++
              (if opts.OptQuery.length > 0 then [Event.execQuery] else [Event.refresh]) ++
              [Event.waitDone]
            if env.exitStatus ≠ 0 then
              (Except.error (somethingErrorMsg env.exitStatus), tr3)
            else
              (Except.ok (env.resultCh.getD []), tr3)

/-- The result loop of `pecolibWrap` (src/pecolib.go lines 166-174): map
each confirmed line's `Output()` back through `choiceMap`, failing with
`"internal error"` at the first output that is not a key. -/
def mapBack (cm : List (String × Choice)) : List Line → Except String (List Choice)
  | [] => Except.ok []
  | m :: rest =>
    match mapLookup cm m.output with
    | some v =>
      match mapBack cm rest with
      | Except.ok tl => Except.ok (v :: tl)
      | Except.error e => Except.error e
    | none => Except.error "internal error"

/-- Embedding of `pecolibWrap` (src/pecolib.go lines 136-177).  A Go nil
slice is `none`; a nil slice element is a `none` entry.  The locals
`choiceMap` and `matches` of the source are inlined as `buildChoiceMap cs`
and `buildMatches cs`. -/
def pecolibWrap (env : Env) (choices : Option (List (Option Choice)))
    (opts : PecoOptions) : Except String (List Choice) × List Event :=
  match choices with
  | none => (Except.error "choices is nil.", [])
  | some cs =>
    if cs.length = 0 then (Except.error "choices is empty.", [])
    else if (buildMatches cs).length = 0 then (Except.error "choices are all nil.", [])
    else
      match pecolibGo env (buildMatches cs) opts with
      | (Except.error e, tr) => (Except.error e, tr)
      | (Except.ok matched, tr) => (mapBack (buildChoiceMap cs) matched, tr)

/-- The options `Choose` constructs (src/pecolib.go lines 100-106). -/
def chooseOpts (message defaultQuery : String) : PecoOptions :=
  { OptPrompt := message ++ " >",
    OptQuery := if defaultQuery ≠ "" then defaultQuery else "" }

/-- Go `len` of a possibly-nil slice. -/
def goLen {α : Type} (l : Option (List α)) : Nat :=
  (l.getD []).length

/-- Embedding of `Choose` (src/pecolib.go lines 94-122).  The final
type-assertion loop keeps exactly the elements implementing `Choosable`;
every value the map can return is a `Choice` and hence a `Choosable`, so the
loop is the identity here. -/
def Choose (env : Env) (itemName message defaultQuery : String)
    (choices : Option (List (Option Choice))) : Except String (List Choice) :=
  if goLen choices = 0 then
    Except.error ("there is no " ++ itemName ++ ".")
  else
    match (pecolibWrap env choices (chooseOpts message defaultQuery)).1 with
    | Except.error _ => Except.error ("no select " ++ itemName ++ ".")
    | Except.ok result =>
      if result.length = 0 then Except.error ("no select " ++ itemName ++ ".")
      else Except.ok result

/-! ### Concrete objects used by counterexamples and witnesses -/

/-- A benign environment: no rc file, terminal setup succeeds, the user
confirms (exit status 0), nil result channel. -/
def envOk : Env :=
  { locateRcfile := none
    readConfig := fun _ => none
    ttyReady := none
    termboxInit := none
    exitStatus := 0
    resultCh := none }

/-- A run in which the user cancelled: the coordinator's exit status is 1. -/
def envCancel : Env := { envOk with exitStatus := 1 }

/-- A run in which `TtyReady` fails. -/
def envTtyFail : Env := { envOk with ttyReady := some "tty failure" }

/-- A run in which the user confirmed the line `"a"`. -/
def envPickA : Env :=
  { envOk with resultCh := some [{ buf := "a", output := "a" }] }

/-- A sample input line. -/
def lineA : Line := { buf := "a", output := "a" }

/-- A line whose output text matches no ingested choice. -/
def lineZ : Line := { buf := "z", output := "z" }

/-- Sample choices; `chA1` and `chA2` are distinct but share display text. -/
def chA1 : Choice := { c := "a", v := "1" }

/-- Second sample choice with the display text of `chA1`. -/
def chA2 : Choice := { c := "a", v := "2" }

/-! ### Lemmas about the ingestion folds -/

/-- The choice-map fold prepends, per non-nil choice, the pair
`(display text, choice)` in reverse input order. -/
theorem foldl_choiceMapStep_eq (cs : List (Option Choice)) :
    ∀ acc, List.foldl choiceMapStep acc cs
      = ((cs.filterMap id).map (fun c => (c.c, c))).reverse ++ acc := by
  induction cs with
  | nil => intro acc; simp
  | cons oc rest ih =>
    intro acc
    cases oc with
    | none => simp [choiceMapStep, ih]
    | some c => simp [choiceMapStep, ih ((c.c, c) :: acc)]

/-- The matches fold appends, per non-nil choice, one raw line in input
order. -/
theorem foldl_matchesStep_eq (cs : List (Option Choice)) :
    ∀ acc, List.foldl matchesStep acc cs
      = acc ++ (cs.filterMap id).map (fun c => NewRawLine c.c true) := by
  induction cs with
  | nil => intro acc; simp
  | cons oc rest ih =>
    intro acc
    cases oc with
    | none => simp [matchesStep, ih]
    | some c => simp [matchesStep, ih (acc ++ [NewRawLine c.c true])]

/-- The function `buildMatches` keeps exactly the non-nil choices, in order. -/
theorem buildMatches_eq (cs : List (Option Choice)) :
    buildMatches cs = (cs.filterMap id).map (fun c => NewRawLine c.c true) := by
  simpa using foldl_matchesStep_eq cs []

/-- Every entry of the choice map pairs a non-nil input choice with its own
display text. -/
theorem mem_buildChoiceMap {cs : List (Option Choice)} {p : String × Choice}
    (hp : p ∈ buildChoiceMap cs) : some p.2 ∈ cs ∧ p.1 = p.2.c := by
  rw [buildChoiceMap, foldl_choiceMapStep_eq] at hp
  simp only [List.append_nil, List.mem_reverse, List.mem_map,
    List.mem_filterMap, id_eq] at hp
  obtain ⟨c, ⟨oc, hoc, hid⟩, hpc⟩ := hp
  subst hid
  cases hpc
  exact ⟨hoc, rfl⟩

/-- A successful map lookup returns one of the non-nil input choices. -/
theorem mapLookup_mem {cs : List (Option Choice)} {k : String} {v : Choice}
    (h : mapLookup (buildChoiceMap cs) k = some v) : some v ∈ cs := by
  unfold mapLookup at h
  obtain ⟨p, hfind, hsnd⟩ := Option.map_eq_some'.mp h
  have hmem := List.mem_of_find?_eq_some hfind
  have := (mem_buildChoiceMap hmem).1
  rwa [hsnd] at this

/-- Go map lookup on one freshly written key. -/
theorem mapLookup_cons (k : String) (c : Choice) (m : List (String × Choice))
    (s : String) :
    mapLookup ((k, c) :: m) s = if k == s then some c else mapLookup m s := by
  by_cases h : k == s <;> simp [mapLookup, List.find?, h]

/-- Every choice in a successful `mapBack` result is the value of some map
lookup. -/
theorem mapBack_ok_mem (cm : List (String × Choice)) :
    ∀ (ms : List Line) (r : List Choice),
      mapBack cm ms = Except.ok r → ∀ v ∈ r, ∃ s, mapLookup cm s = some v := by
  intro ms
  induction ms with
  | nil =>
    intro r h v hv
    simp only [mapBack, Except.ok.injEq] at h
    subst h
    cases hv
  | cons m rest ih =>
    intro r h v hv
    simp only [mapBack] at h
    cases hlk : mapLookup cm m.output with
    | none => rw [hlk] at h; cases h
    | some w =>
      rw [hlk] at h
      cases hrec : mapBack cm rest with
      | error e => rw [hrec] at h; cases h
      | ok tl =>
        rw [hrec] at h
        simp only [Except.ok.injEq] at h
        subst h
        rcases List.mem_cons.mp hv with rfl | hv'
        · exact ⟨m.output, hlk⟩
        · exact ih tl hrec v hv'

/-- If some confirmed line's output is not a key of the map, the result
loop fails with `"internal error"`. -/
theorem mapBack_unmappable (cm : List (String × Choice)) :
    ∀ ms : List Line, (∃ m ∈ ms, mapLookup cm m.output = none) →
      mapBack cm ms = Except.error "internal error" := by
  intro ms
  induction ms with
  | nil => rintro ⟨m, hm, -⟩; cases hm
  | cons m rest ih =>
    rintro ⟨m', hm', hlk⟩
    rcases List.mem_cons.mp hm' with rfl | hm'
    · simp [mapBack, hlk]
    · cases h : mapLookup cm m.output with
      | none => simp [mapBack, h]
      | some w => simp [mapBack, h, ih ⟨m', hm', hlk⟩]

/-- Looking up a display text in the choice map returns the last non-nil
choice of the input list carrying that text (Go map writes overwrite). -/
theorem foldl_mapLookup_last (s : String) :
    ∀ (cs : List (Option Choice)) (acc : List (String × Choice)),
      mapLookup (List.foldl choiceMapStep acc cs) s
        = match lastWithText cs s with
          | some v => some v
          | none => mapLookup acc s := by
  intro cs
  induction cs with
  | nil => intro acc; simp [lastWithText]
  | cons oc rest ih =>
    intro acc
    cases oc with
    | none =>
      simpa only [List.foldl_cons, choiceMapStep, lastWithText] using ih acc
    | some c =>
      have h2 := ih ((c.c, c) :: acc)
      simp only [List.foldl_cons, choiceMapStep, lastWithText]
      rw [h2]
      cases hl : lastWithText rest s with
      | some v => simp [hl]
      | none =>
        simp only [hl]
        rw [mapLookup_cons]
        by_cases hc : c.c == s <;> simp [hc]

/-! ### Claim theorems -/

/-- C8: the initial cursor index is normalized to a 1-based internal value
of at least 1: `InitialIndex()` returns `i + 1` for a configured index
`i ≥ 0` and `1` for a negative `i`; in particular a configured index of `0`
yields `1`. -/
theorem InitialIndex_normalizes (o : PecoOptions) :
    (0 ≤ o.OptInitialIndex → o.InitialIndex = o.OptInitialIndex + 1)
    ∧ (o.OptInitialIndex < 0 → o.InitialIndex = 1)
    ∧ (o.OptInitialIndex = 0 → o.InitialIndex = 1) := by
  refine ⟨fun h => ?_, fun h => ?_, fun h => ?_⟩
  · simp [PecoOptions.InitialIndex, h]
  · simp [PecoOptions.InitialIndex, not_le.mpr h]
  · simp [PecoOptions.InitialIndex, h]

/-- Witness for C8 at the concrete indices 4, -7 and 0. -/
theorem InitialIndex_normalizes_witness :
    ({ OptInitialIndex := 4 } : PecoOptions).InitialIndex = 5
    ∧ ({ OptInitialIndex := -7 } : PecoOptions).InitialIndex = 1
    ∧ ({ OptInitialIndex := 0 } : PecoOptions).InitialIndex = 1 :=
  ⟨(InitialIndex_normalizes _).1 (by decide),
   (InitialIndex_normalizes _).2.1 (by decide),
   (InitialIndex_normalizes _).2.2 rfl⟩

/-- C4 fails on the code: because `refresh` and its mutex are locals of
`draw`, a call made while a previously armed timer is still pending is not
a no-op — it arms a second timer, and after both timers fire the
execute-and-redraw action has run twice in the window. -/
theorem draw_rearms_while_pending :
    draw { armedTimers := 1, firedActions := 0 } ≠ { armedTimers := 1, firedActions := 0 }
    ∧ (draw { armedTimers := 1, firedActions := 0 }).armedTimers = 2
    ∧ (timerFire (timerFire (draw (draw { armedTimers := 0, firedActions := 0 })))).firedActions
        = 2 := by
  refine ⟨by decide, rfl, rfl⟩

/-- C7: the display-text-keyed choice map is last-write-wins: a lookup
returns the last non-nil input choice carrying the looked-up display text,
and in particular two distinct choices with identical display text are
conflated into the later one. -/
theorem choiceMap_last_write_wins (cs : List (Option Choice)) (s : String)
    (cFst cSnd : Choice) (_hne : cFst ≠ cSnd) (hc : cFst.c = cSnd.c) :
    mapLookup (buildChoiceMap cs) s = lastWithText cs s
    ∧ mapLookup (buildChoiceMap [some cFst, some cSnd]) cFst.c = some cSnd := by
  have key : ∀ cs0 : List (Option Choice), ∀ s0,
      mapLookup (buildChoiceMap cs0) s0 = lastWithText cs0 s0 := by
    intro cs0 s0
    rw [buildChoiceMap, foldl_mapLookup_last]
    cases lastWithText cs0 s0 <;> simp [mapLookup]
  refine ⟨key cs s, ?_⟩
  rw [key]
  simp [lastWithText, hc]

/-- Witness for C7: `chA1` and `chA2` differ but share display text `"a"`;
the map hands back `chA2`. -/
theorem choiceMap_last_write_wins_witness :
    mapLookup (buildChoiceMap [some chA1, some chA2]) "a" = some chA2 :=
  (choiceMap_last_write_wins [some chA1, some chA2] "a" chA1 chA2
    (by decide) rfl).2

/-- C5: a nil, empty or all-nil choice list makes `pecolibWrap` fail with
a descriptive error and an empty trace — no terminal interaction, no
session. -/
theorem pecolibWrap_degenerate_inputs (env : Env) (opts : PecoOptions)
    (cs : List (Option Choice)) :
    pecolibWrap env none opts = (Except.error "choices is nil.", [])
    ∧ (cs = [] → pecolibWrap env (some cs) opts = (Except.error "choices is empty.", []))
    ∧ ((∀ oc ∈ cs, oc = none) → cs ≠ [] →
        pecolibWrap env (some cs) opts = (Except.error "choices are all nil.", [])) := by
  refine ⟨rfl, ?_, ?_⟩
  · rintro rfl; rfl
  · intro hall hne
    have hlen : ¬ cs.length = 0 := by simpa using hne
    have hfm : cs.filterMap id = [] := by
      rw [List.filterMap_eq_nil_iff]
      simpa using hall
    have hm : (buildMatches cs).length = 0 := by
      rw [buildMatches_eq, hfm]
      rfl
    simp [pecolibWrap, hlen, hm]

/-- Witness for C5 at the all-nil list `[nil]` and the empty list. -/
theorem pecolibWrap_degenerate_inputs_witness :
    pecolibWrap envOk (some [(none : Option Choice)]) NewPecoOption
      = (Except.error "choices are all nil.", [])
    ∧ pecolibWrap envOk (some ([] : List (Option Choice))) NewPecoOption
      = (Except.error "choices is empty.", []) :=
  ⟨(pecolibWrap_degenerate_inputs envOk NewPecoOption [none]).2.2
      (by decide) (by decide),
   (pecolibWrap_degenerate_inputs envOk NewPecoOption []).2.1 rfl⟩

/-- C2: whatever the session confirms, every choice `pecolibWrap` returns
is one of the caller's input choices (found through the display-text map),
and a confirmed output that maps to no input choice makes the result loop
fail with `"internal error"` instead of returning partial results. -/
theorem pecolibWrap_subset_of_inputs (env : Env) (cs : List (Option Choice))
    (opts : PecoOptions) :
    (∀ r tr, pecolibWrap env (some cs) opts = (Except.ok r, tr) →
      ∀ x ∈ r, some x ∈ cs)
    ∧ (∀ ms : List Line,
        (∃ m ∈ ms, mapLookup (buildChoiceMap cs) m.output = none) →
        mapBack (buildChoiceMap cs) ms = Except.error "internal error") := by
  constructor
  · intro r tr h x hx
    by_cases h0 : cs.length = 0
    · simp [pecolibWrap, h0] at h
    · by_cases h1 : (buildMatches cs).length = 0
      · simp [pecolibWrap, h0, h1] at h
      · simp only [pecolibWrap, if_neg h0, if_neg h1] at h
        cases hgo : pecolibGo env (buildMatches cs) opts with
        | mk res tr2 =>
          rw [hgo] at h
          cases res with
          | error e => simp at h
          | ok matched =>
            simp only [Prod.mk.injEq] at h
            obtain ⟨hmb, -⟩ := h
            obtain ⟨s, hs⟩ := mapBack_ok_mem (buildChoiceMap cs) matched r hmb x hx
            exact mapLookup_mem hs
  · exact mapBack_unmappable _

/-- Witness for C2: with choice `chA1` and a session confirming the text
`"a"`, the returned choice is a member of the input; a session output
`"z"` unknown to the map makes the result loop fail. -/
theorem pecolibWrap_subset_of_inputs_witness :
    some chA1 ∈ [some chA1]
    ∧ mapBack (buildChoiceMap [some chA1]) [lineZ]
        = Except.error "internal error" :=
  ⟨(pecolibWrap_subset_of_inputs envPickA [some chA1] NewPecoOption).1 [chA1]
      [Event.drawCall, Event.ttyReady, Event.termboxInit, Event.loopView,
       Event.loopFilter, Event.loopInput, Event.loopSignal, Event.refresh,
       Event.waitDone]
      rfl chA1 (by simp),
   (pecolibWrap_subset_of_inputs envPickA [some chA1] NewPecoOption).2 [lineZ]
      ⟨lineZ, by simp, rfl⟩⟩

/-- C9: nil entries of a choice list that has at least one non-nil element
are skipped silently: only the non-nil choices are ingested (in order), and
the whole call behaves exactly as if the nil entries were absent — in
particular it proceeds to the session instead of failing. -/
theorem pecolibWrap_skips_nil_choices (env : Env) (opts : PecoOptions)
    (cs : List (Option Choice)) (hnn : ∃ c : Choice, some c ∈ cs) :
    buildMatches cs = (cs.filterMap id).map (fun c => NewRawLine c.c true)
    ∧ pecolibWrap env (some cs) opts
        = pecolibWrap env (some ((cs.filterMap id).map some)) opts
    ∧ pecolibWrap env (some cs) opts
        = (match pecolibGo env (buildMatches cs) opts with
           | (Except.error e, tr) => (Except.error e, tr)
           | (Except.ok matched, tr) => (mapBack (buildChoiceMap cs) matched, tr)) := by
  obtain ⟨c, hc⟩ := hnn
  have hcf : c ∈ cs.filterMap id := List.mem_filterMap.mpr ⟨some c, hc, rfl⟩
  have hfm : cs.filterMap id ≠ [] := List.ne_nil_of_mem hcf
  have hcs : ¬ cs.length = 0 := by
    simp only [List.length_eq_zero]
    intro h; subst h; cases hc
  have hfilter : ((cs.filterMap id).map some).filterMap id = cs.filterMap id := by
    rw [List.filterMap_map]
    simp
  have hbm : buildMatches ((cs.filterMap id).map some) = buildMatches cs := by
    rw [buildMatches_eq, buildMatches_eq, hfilter]
  have hbcm : buildChoiceMap ((cs.filterMap id).map some) = buildChoiceMap cs := by
    rw [buildChoiceMap, buildChoiceMap, foldl_choiceMapStep_eq,
      foldl_choiceMapStep_eq, hfilter]
  have hml : ¬ (buildMatches cs).length = 0 := by
    rw [buildMatches_eq]
    simpa using hfm
  have hlen2 : ¬ ((cs.filterMap id).map some).length = 0 := by
    simpa using hfm
  refine ⟨buildMatches_eq cs, ?_, ?_⟩
  · simp only [pecolibWrap, if_neg hcs, if_neg hml, if_neg hlen2, hbm, hbcm,
      if_neg (hbm ▸ hml)]
  · simp only [pecolibWrap, if_neg hcs, if_neg hml]

/-- Witness for C9: the list `[nil, chA1]` behaves as `[chA1]`. -/
theorem pecolibWrap_skips_nil_choices_witness :
    pecolibWrap envOk (some [none, some chA1]) NewPecoOption
      = pecolibWrap envOk (some [some chA1]) NewPecoOption :=
  (pecolibWrap_skips_nil_choices envOk NewPecoOption [none, some chA1]
    ⟨chA1, by simp⟩).2.1

/-- C10: whenever the underlying library call returns an error or an empty
result (user cancel included) — and the choice list itself was non-empty —
`Choose` reports failure: a nil selection with the descriptive error
`"no select <itemName>."`. -/
theorem Choose_empty_selection_is_error (env : Env)
    (itemName message defaultQuery : String)
    (choices : Option (List (Option Choice)))
    (hne : goLen choices ≠ 0)
    (hfail : (∃ e, (pecolibWrap env choices (chooseOpts message defaultQuery)).1
                = Except.error e)
      ∨ (pecolibWrap env choices (chooseOpts message defaultQuery)).1
          = Except.ok []) :
    Choose env itemName message defaultQuery choices
      = Except.error ("no select " ++ itemName ++ ".") := by
  unfold Choose
  rw [if_neg hne]
  rcases hfail with ⟨e, he⟩ | hok
  · rw [he]
  · rw [hok]
    rfl

/-- Witness for C10: the user cancels (exit status 1), so the underlying
call errors and `Choose` reports `"no select instance."`. -/
theorem Choose_empty_selection_is_error_witness :
    Choose envCancel "instance" "select" "" (some [some chA1])
      = Except.error "no select instance." :=
  Choose_empty_selection_is_error envCancel "instance" "select" ""
    (some [some chA1]) (by decide)
    (Or.inl ⟨"something error code: 1", rfl⟩)

/-- C1 fails on the code: in a run that reaches the session and ends with a
non-zero exit status (here: user cancel, status 1), both snapshots return a
NON-nil error, not a nil one. -/
theorem pecolib_cancel_error_not_nil :
    envCancel.exitStatus ≠ 0
    ∧ (pecolibGo envCancel [lineA] NewPecoOption).1
        = Except.error "something error code: 1"
    ∧ (pecolibMatch envCancel [lineA] NewPecoOption).1
        = Except.error "something error code: 1" :=
  ⟨by decide, rfl, rfl⟩

/-- C1 (amended): for every run that reaches the session, a non-zero final
exit status makes both snapshots return a nil selection together with the
non-nil error `"something error code: <status>"`. -/
theorem pecolib_nonzero_status_returns_error (env : Env) (lines : List Line)
    (opts : PecoOptions)
    (hlay : opts.OptLayout = "" ∨ IsValidLayoutType opts.OptLayout)
    (hrc : (if effectiveRcfile env opts = "" then none
            else env.readConfig (effectiveRcfile env opts)) = none)
    (hmat : opts.OptInitialMatcher = "" ∨ knownMatcher opts.OptInitialMatcher)
    (htty : env.ttyReady = none) (htb : env.termboxInit = none)
    (hst : env.exitStatus ≠ 0) :
    (pecolibGo env lines opts).1 = Except.error (somethingErrorMsg env.exitStatus)
    ∧ (pecolibMatch env lines opts).1
        = Except.error (somethingErrorMsg env.exitStatus) := by
  have hl : ¬ (opts.OptLayout ≠ "" ∧ ¬ IsValidLayoutType opts.OptLayout) := by
    rcases hlay with h | h
    · exact fun hx => hx.1 h
    · exact fun hx => hx.2 h
  have hm : ¬ (opts.OptInitialMatcher.length > 0
      ∧ ¬ knownMatcher opts.OptInitialMatcher) := by
    rcases hmat with h | h
    · intro hx
      rw [h] at hx
      exact absurd hx.1 (by decide)
    · exact fun hx => hx.2 h
  constructor
  · simp only [pecolibGo, if_neg hl, hrc, htty, htb, if_pos hst]
  · simp only [pecolibMatch, if_neg hl, hrc, if_neg hm, htty, htb, if_pos hst]

/-- Witness for C1 (amended) at the concrete cancel environment. -/
theorem pecolib_nonzero_status_returns_error_witness :
    (pecolibGo envCancel [lineA] NewPecoOption).1
      = Except.error (somethingErrorMsg 1) :=
  (pecolib_nonzero_status_returns_error envCancel [lineA] NewPecoOption
    (Or.inl rfl) rfl (Or.inl rfl) rfl rfl (by decide)).1

/-- C3 fails on the Line snapshot: `pecolib` in src/pecolib.go never
consults `OptInitialMatcher`, so an unknown matcher name is not rejected —
the run proceeds through terminal acquisition and succeeds. -/
theorem pecolib_unknown_matcher_not_rejected :
    knownMatcher "nosuchmatcher" = false
    ∧ (pecolibGo envOk [lineA] { OptInitialMatcher := "nosuchmatcher" }).1
        = Except.ok []
    ∧ Event.ttyReady
        ∈ (pecolibGo envOk [lineA] { OptInitialMatcher := "nosuchmatcher" }).2
    ∧ Event.termboxInit
        ∈ (pecolibGo envOk [lineA] { OptInitialMatcher := "nosuchmatcher" }).2 :=
  ⟨by decide, rfl, by decide, by decide⟩

/-- C3 (amended): an unknown layout name is rejected by both snapshots
before anything external is touched (empty trace); an unknown initial
matcher name is rejected before terminal acquisition by the Match snapshot
only (its trace holds at most the rc-file read), while the Line snapshot
ignores the matcher name entirely. -/
theorem config_errors_fail_fast (env : Env) (lines : List Line)
    (opts : PecoOptions) :
    (opts.OptLayout ≠ "" → ¬ IsValidLayoutType opts.OptLayout →
        pecolibGo env lines opts = (Except.error (unknownLayoutMsg opts.OptLayout), [])
        ∧ pecolibMatch env lines opts
            = (Except.error (unknownLayoutMsg opts.OptLayout), []))
    ∧ ((if effectiveRcfile env opts = "" then none
        else env.readConfig (effectiveRcfile env opts)) = none →
       (opts.OptLayout = "" ∨ IsValidLayoutType opts.OptLayout) →
       opts.OptInitialMatcher.length > 0 →
       ¬ knownMatcher opts.OptInitialMatcher →
        (pecolibMatch env lines opts).1
            = Except.error (unknownMatcherMsg opts.OptInitialMatcher)
        ∧ ∀ ev ∈ (pecolibMatch env lines opts).2, ev = Event.readConfig) := by
  constructor
  · intro h1 h2
    constructor
    · simp only [pecolibGo, if_pos (And.intro h1 h2)]
    · simp only [pecolibMatch, if_pos (And.intro h1 h2)]
  · intro hrc hlay hml hmk
    have hl : ¬ (opts.OptLayout ≠ "" ∧ ¬ IsValidLayoutType opts.OptLayout) := by
      rcases hlay with h | h
      · exact fun hx => hx.1 h
      · exact fun hx => hx.2 h
    simp only [pecolibMatch, if_neg hl, hrc, if_pos (And.intro hml hmk)]
    constructor
    · trivial
    · by_cases hrf : effectiveRcfile env opts = "" <;> simp [hrf]

/-- Witness for C3 (amended) at a concrete unknown layout and a concrete
unknown matcher. -/
theorem config_errors_fail_fast_witness :
    pecolibGo envOk [lineA] { OptLayout := "sideways" }
      = (Except.error (unknownLayoutMsg "sideways"), [])
    ∧ (pecolibMatch envOk [lineA] { OptInitialMatcher := "nosuchmatcher" }).1
        = Except.error (unknownMatcherMsg "nosuchmatcher") :=
  ⟨(config_errors_fail_fast envOk [lineA] { OptLayout := "sideways" }).1
      (by decide) (by decide) |>.1,
   ((config_errors_fail_fast envOk [lineA]
      { OptInitialMatcher := "nosuchmatcher" }).2 rfl (Or.inl rfl)
      (by decide) (by decide)).1⟩

/-- C6: if terminal initialization fails — `TtyReady` errors, or it
succeeds and `termbox.Init` errors — both snapshots return that very error,
and no loop event (view, filter, input, signal) appears in the trace: every
performed call is the rc-file read, the draw call or the failed terminal
setup itself. -/
theorem pecolib_terminal_init_fail_fast (env : Env) (lines : List Line)
    (opts : PecoOptions) (e : String)
    (hlay : opts.OptLayout = "" ∨ IsValidLayoutType opts.OptLayout)
    (hrc : (if effectiveRcfile env opts = "" then none
            else env.readConfig (effectiveRcfile env opts)) = none)
    (hmat : opts.OptInitialMatcher = "" ∨ knownMatcher opts.OptInitialMatcher)
    (hfail : env.ttyReady = some e
      ∨ (env.ttyReady = none ∧ env.termboxInit = some e)) :
    (pecolibGo env lines opts).1 = Except.error e
    ∧ (pecolibMatch env lines opts).1 = Except.error e
    ∧ (∀ ev ∈ (pecolibGo env lines opts).2,
        ev = Event.readConfig ∨ ev = Event.drawCall ∨ ev = Event.ttyReady
          ∨ ev = Event.termboxInit)
    ∧ (∀ ev ∈ (pecolibMatch env lines opts).2,
        ev = Event.readConfig ∨ ev = Event.drawCall ∨ ev = Event.ttyReady
          ∨ ev = Event.termboxInit) := by
  have hl : ¬ (opts.OptLayout ≠ "" ∧ ¬ IsValidLayoutType opts.OptLayout) := by
    rcases hlay with h | h
    · exact fun hx => hx.1 h
    · exact fun hx => hx.2 h
  have hm : ¬ (opts.OptInitialMatcher.length > 0
      ∧ ¬ knownMatcher opts.OptInitialMatcher) := by
    rcases hmat with h | h
    · intro hx
      rw [h] at hx
      exact absurd hx.1 (by decide)
    · exact fun hx => hx.2 h
  rcases hfail with htty | ⟨htty, htb⟩
  · refine ⟨?_, ?_, ?_, ?_⟩
    · simp only [pecolibGo, if_neg hl, hrc, htty]
    · simp only [pecolibMatch, if_neg hl, hrc, if_neg hm, htty]
    · simp only [pecolibGo, if_neg hl, hrc, htty]
      by_cases hrf : effectiveRcfile env opts = "" <;> simp [hrf]
    · simp only [pecolibMatch, if_neg hl, hrc, if_neg hm, htty]
      by_cases hrf : effectiveRcfile env opts = "" <;> simp [hrf]
  · refine ⟨?_, ?_, ?_, ?_⟩
    · simp only [pecolibGo, if_neg hl, hrc, htty, htb]
    · simp only [pecolibMatch, if_neg hl, hrc, if_neg hm, htty, htb]
    · simp only [pecolibGo, if_neg hl, hrc, htty, htb]
      by_cases hrf : effectiveRcfile env opts = "" <;> simp [hrf]
    · simp only [pecolibMatch, if_neg hl, hrc, if_neg hm, htty, htb]
      by_cases hrf : effectiveRcfile env opts = "" <;> simp [hrf]

/-- Witness for C6 at a concrete failing `TtyReady`. -/
theorem pecolib_terminal_init_fail_fast_witness :
    (pecolibGo envTtyFail [lineA] NewPecoOption).1
      = Except.error "tty failure" :=
  (pecolib_terminal_init_fail_fast envTtyFail [lineA] NewPecoOption
    "tty failure" (Or.inl rfl) rfl (Or.inl rfl) (Or.inl rfl)).1

end Peco
